import Mathlib

/-!
Shallow embedding of the token-lifecycle subsystem of `python_edu_diplom`
(`src/common/src/theatre/core/token.py`, `src/common/src/theatre/core/helpers.py`,
`src/auth_api/src/services/auth.py`).

Modelling conventions:
* Unix timestamps and durations are `Int` seconds.
* A signed JWT string is modelled symbolically as the record of its claims, the
  signing key and the algorithm name; `jwt.encode` is injective on that data.
* `jwt.decode(token, key, algorithms=[alg])` is the PyJWT call with default
  options: it fails when the key or algorithm does not match (signature failure)
  and it verifies the `exp` claim with zero leeway, raising
  `ExpiredSignatureError` when `exp <= now`.
* The Redis store is an association list from key strings to (value, ttl)
  pairs; `get`/`setex`/`delete` mirror the Redis commands used by the code.
* `async` methods are pure state transformers; exceptions are `Except` errors.
-/

namespace Theatre

/-- `UserSubject` (auth_schemas.py): identity payload embedded in a token —
an id plus denormalized profile attributes. -/
structure UserSubject where
  id : String
  login : String
  email : String
  first_name : String
  last_name : String
deriving DecidableEq, Repr

/-- Error values raised by the token subsystem.  Each constructor records the
Python exception at the raise site it models. -/
inductive TokenError where
  /-- `Exception('Unsupported encoding algorithm = ...')` in `set_algorithm`. -/
  | unsupportedAlgorithm : TokenError
  /-- `Exception('Algorithm is not set')` in `set_secret_key_strength`. -/
  | algorithmNotSet : TokenError
  /-- `Exception('Secret key strength must be not less than ...')` in
  `set_secret_key_strength`. -/
  | secretStrengthError : TokenError
  /-- PyJWT signature/structure failure inside `jwt.decode`. -/
  | invalidSignature : TokenError
  /-- Expiry failure: PyJWT `ExpiredSignatureError` from `jwt.decode`, or the
  handlers' own `InvalidTokenError('Token Pair is expired ...')` /
  `InvalidTokenError('Access token is out of date ...')`. -/
  | tokenExpired : TokenError
  /-- Missing store entry: `InvalidIssuerError('token is absent ...')` in
  `RefreshTokenValidityHandler` and `InvalidTokenError("Can't prolong refresh
  token because user has no Refresh token ...")` in `ProlongRefreshTokenHandler`. -/
  | tokenAbsent : TokenError
  /-- `InvalidIssuerError("Can't prolong refresh token because days_in_sec < 0 ...")`. -/
  | negativeLifetime : TokenError
deriving DecidableEq, Repr

/-- The claims dictionary built by `JwtTokenBuilder.build`:
`{'sub': subject.model_dump_json(), 'iat': ..., 'exp': ...}`.  The `sub` value
is kept as the `UserSubject` itself: `model_dump_json` /
`model_validate_json` form a round trip, so the serialization is injective. -/
structure Claims where
  sub : UserSubject
  iat : Int
  exp : Int
deriving DecidableEq, Repr

/-- A signed JWT string, modelled symbolically: the claims plus the signing
key and algorithm that produced the signature. -/
structure Jwt where
  claims : Claims
  key : Nat
  alg : String
deriving DecidableEq, Repr

/-- `JwtTokenCoder.encode`: `jwt.encode({**subject_claims}, key=secret_key,
algorithm=algorithm)`. -/
def JwtTokenCoder.encode (subject_claims : Claims) (secret_key : Nat)
    (algorithm : String) : Jwt :=
  { claims := subject_claims, key := secret_key, alg := algorithm }

/-- `JwtTokenCoder.decode`: `jwt.decode(jwt=encode_token, key=secret_key,
algorithms=[algorithm])` with PyJWT default options.  A key or algorithm
mismatch is a signature failure; the `exp` claim is verified with zero leeway
(`ExpiredSignatureError` when `exp <= now`). -/
def JwtTokenCoder.decode (encode_token : Jwt) (secret_key : Nat)
    (algorithm : String) (now : Int) : Except TokenError Claims :=
  if encode_token.key = secret_key ∧ encode_token.alg = algorithm then
    if encode_token.claims.exp ≤ now then .error .tokenExpired
    else .ok encode_token.claims
  else .error .invalidSignature

/-- `JwtTokenBuilder.SUPPORT_SECRET_KEY_ALGORITHM_DICT`: supported algorithms
with their `strength` entries. -/
def SUPPORT_SECRET_KEY_ALGORITHM_DICT (algorithm : String) : Option Int :=
  if algorithm = "HS256" then some 1024
  else if algorithm = "RS256" then some 2048
  else none

/-- Configuration-stage state of `JwtTokenBuilder`: the `_algorithm` and
`_key_strength` attributes, `None` until set. -/
structure JwtTokenBuilderState where
  algorithm : Option String
  key_strength : Option Int
deriving DecidableEq, Repr

/-- `JwtTokenBuilder.set_algorithm`: raises when the algorithm is not in the
supported dict, else records it. -/
def JwtTokenBuilder.set_algorithm (b : JwtTokenBuilderState) (algorithm : String) :
    Except TokenError JwtTokenBuilderState :=
  match SUPPORT_SECRET_KEY_ALGORITHM_DICT algorithm with
  | none => .error .unsupportedAlgorithm
  | some _ => .ok { b with algorithm := some algorithm }

/-- `JwtTokenBuilder.set_secret_key_strength`: raises when no algorithm is set;
looks up the required strength and raises
`Exception('Secret key strength must be not less than ...')` when
`secret_key_strength > required_key_strength` (the comparison as written in
the source), else records the strength. -/
def JwtTokenBuilder.set_secret_key_strength (b : JwtTokenBuilderState)
    (secret_key_strength : Int) : Except TokenError JwtTokenBuilderState :=
  match b.algorithm with
  | none => .error .algorithmNotSet
  | some alg =>
    match SUPPORT_SECRET_KEY_ALGORITHM_DICT alg with
    | none => .error .unsupportedAlgorithm
    | some required_key_strength =>
      if secret_key_strength > required_key_strength then .error .secretStrengthError
      else .ok { b with key_strength := some secret_key_strength }

/-- An initialized `JwtTokenBuilder`: after `init()` the builder holds a
resolved `_secret_key` and a validated `_algorithm`, which are all that
`build`/`encode`/`decode` read. -/
structure JwtTokenBuilder where
  secret_key : Nat
  algorithm : String
deriving DecidableEq, Repr

/-- `JwtTokenBuilder.build`: claims `{'sub': subject, 'iat': int(now),
'exp': int(now + expire_delta)}`, then `encode`.  The source calls
`datetime.now(timezone.utc)` twice, once for `iat` and once for `exp`, so the
two instants are passed separately (`now_iat`, `now_exp`). -/
def JwtTokenBuilder.build (b : JwtTokenBuilder) (subject : UserSubject)
    (expire_delta : Int) (now_iat now_exp : Int) : Jwt :=
  JwtTokenCoder.encode
    { sub := subject, iat := now_iat, exp := now_exp + expire_delta }
    b.secret_key b.algorithm

/-- `JwtTokenBuilder.encode`: delegate to the coder with the builder's key and
algorithm. -/
def JwtTokenBuilder.encode (b : JwtTokenBuilder) (subject_claims : Claims) : Jwt :=
  JwtTokenCoder.encode subject_claims b.secret_key b.algorithm

/-- `JwtTokenBuilder.decode`: delegate to the coder with the builder's key and
algorithm; `now` is the clock PyJWT reads for `exp` verification. -/
def JwtTokenBuilder.decode (b : JwtTokenBuilder) (encode_token : Jwt) (now : Int) :
    Except TokenError Claims :=
  JwtTokenCoder.decode encode_token b.secret_key b.algorithm now

/-- A Redis entry: the stored value and the TTL (in seconds) it was written
with by `setex`. -/
structure StoreEntry where
  value : Jwt
  ttl : Int
deriving DecidableEq, Repr

/-- The Redis key-value store as seen by the token subsystem: keys are subject
id strings, values are stored token strings with their TTL. -/
abbrev Store := List (String × StoreEntry)

/-- `redis.get(name)`. -/
def Store.get : Store → String → Option StoreEntry
  | [], _ => none
  | (k, e) :: rest, name => if k = name then some e else Store.get rest name

/-- `redis.delete(name)`: removing an absent key is not an error. -/
def Store.delete : Store → String → Store
  | [], _ => []
  | (k, e) :: rest, name =>
    if k = name then Store.delete rest name else (k, e) :: Store.delete rest name

/-- `redis.setex(name, time, value)`: write `value` under `name` with TTL
`time` seconds, replacing any previous entry. -/
def Store.setex (s : Store) (name : String) (time : Int) (value : Jwt) : Store :=
  (name, { value := value, ttl := time }) :: Store.delete s name

/-- `helpers.days_between`: `abs((d2 - d1).days)` — `timedelta.days` is the
floor (toward minus infinity) of the difference in seconds divided by 86400. -/
def days_between (d1 d2 : Int) : Int :=
  |Int.fdiv (d2 - d1) (24 * 60 * 60)|

/-- `helpers.seconds_between`: `abs(days_between(d1, d2) * 24 * 60 * 60)`. -/
def seconds_between (d1 d2 : Int) : Int :=
  |days_between d1 d2 * 24 * 60 * 60|

/-- `AccessTokenFactory.create` = `BaseTokenFactory.create`: pure passthrough
to `builder.build`, no persistence. -/
def AccessTokenFactory.create (b : JwtTokenBuilder) (subject : UserSubject)
    (expire_delta : Int) (now_iat now_exp : Int) : Jwt :=
  b.build subject expire_delta now_iat now_exp

/-- `RefreshTokenFactory.create`: key = `str(subject.id)`; if no entry is
stored, build a token and `setex` it, returning the token; if an entry exists,
log a warning and return `None` leaving the store untouched.

The TTL passed to `setex` is `days_in_sec = expire_delta * 24 * 60 * 60`:
`expire_delta` is a `timedelta`, so this scales it by 86400, and redis-py
converts a `timedelta` TTL to whole seconds — with `expire_delta` measured in
seconds the stored TTL is `expire_delta * 86400` seconds. -/
def RefreshTokenFactory.create (b : JwtTokenBuilder) (store : Store)
    (subject : UserSubject) (expire_delta : Int) (now_iat now_exp : Int) :
    Option Jwt × Store :=
  let subject_key := subject.id
  match Store.get store subject_key with
  | none =>
    let jwt_token := b.build subject expire_delta now_iat now_exp
    let days_in_sec : Int := expire_delta * 24 * 60 * 60
    (some jwt_token, Store.setex store subject_key days_in_sec jwt_token)
  | some _ => (none, store)

/-- A chain node's `handle()` as a transformer of the shared store, with the
node's constructor arguments partially applied. -/
abbrev Handler := Store → Except TokenError Store

/-- `BaseHandler.process`: walk the chain from `self` along the `next` links;
each node's `handle()` runs once, and an exception is logged and re-raised
unchanged, aborting the walk.  The linked `next`-chain is embedded as the list
of the nodes' `handle` functions in chain order. -/
def BaseHandler.process : List Handler → Store → Except TokenError Store
  | [], store => .ok store
  | h :: rest, store =>
    match h store with
    | .ok store2 => BaseHandler.process rest store2
    | .error e => .error e

/-- The number of handlers whose `handle()` is invoked by
`BaseHandler.process` on the given chain and store. -/
def BaseHandler.executed : List Handler → Store → Nat
  | [], _ => 0
  | h :: rest, store =>
    match h store with
    | .ok store2 => BaseHandler.executed rest store2 + 1
    | .error _ => 1

/-- `RefreshTokenValidityHandler.handle`: raise
`InvalidIssuerError('token is absent ...')` when no entry is stored under the
subject's id; otherwise succeed.  The stored value is never read or compared. -/
def RefreshTokenValidityHandler.handle (subject : UserSubject) : Handler :=
  fun store =>
    match Store.get store subject.id with
    | none => .error .tokenAbsent
    | some _ => .ok store

/-- `RevokeRefreshTokenHandler.handle`: `redis.delete(str(subject['id']))`,
unconditionally. -/
def RevokeRefreshTokenHandler.handle (subject : UserSubject) : Handler :=
  fun store => .ok (Store.delete store subject.id)

/-- `RefreshTokenExpirationValidityHandler.handle`: load the stored token and
decode it; `is_refresh_token_expired = exp > now` (the name is inverted: true
means still valid); raise `InvalidTokenError` when the check fails.  When
nothing is stored the absent message is overwritten by
`'Token Pair is expired ...'`, so that branch also raises the expired error. -/
def RefreshTokenExpirationValidityHandler.handle (b : JwtTokenBuilder)
    (subject : UserSubject) (now : Int) : Handler :=
  fun store =>
    match Store.get store subject.id with
    | none => .error .tokenExpired
    | some data =>
      match b.decode data.value now with
      | .error e => .error e
      | .ok refresh_token_subject_claims =>
        if refresh_token_subject_claims.exp > now then .ok store
        else .error .tokenExpired

/-- `AccessTokenExpirationValidityHandler.handle`: decode the passed-in access
token and raise `InvalidTokenError('Access token is out of date ...')` when
`exp < now`. -/
def AccessTokenExpirationValidityHandler.handle (b : JwtTokenBuilder)
    (access_token : Jwt) (now : Int) : Handler :=
  fun store =>
    match b.decode access_token now with
    | .error e => .error e
    | .ok access_token_subject_claims =>
      if access_token_subject_claims.exp < now then .error .tokenExpired
      else .ok store

/-- `ProlongRefreshTokenHandler.handle`: load and decode the stored token;
`new_exp_date = fromtimestamp(exp) + timedelta(days=refresh_token_lifetime_days)`
and `iat_date = fromtimestamp(iat)` (the local-time offsets cancel in the
difference), `seconds_to_expire = seconds_between(iat_date, new_exp_date)`;
raise when negative, else `setex` the re-encoded claims — the claims dict is
not modified between `decode` and `encode`. -/
def ProlongRefreshTokenHandler.handle (b : JwtTokenBuilder) (subject : UserSubject)
    (refresh_token_lifetime_days now : Int) : Handler :=
  fun store =>
    let subject_key := subject.id
    match Store.get store subject_key with
    | none => .error .tokenAbsent
    | some data =>
      match b.decode data.value now with
      | .error e => .error e
      | .ok subject_claims =>
        let new_exp_date : Int :=
          subject_claims.exp + refresh_token_lifetime_days * 24 * 60 * 60
        let iat_date : Int := subject_claims.iat
        let seconds_to_expire : Int := seconds_between iat_date new_exp_date
        if seconds_to_expire < 0 then .error .negativeLifetime
        else .ok (Store.setex store subject_key seconds_to_expire
          (b.encode subject_claims))

/-- `AuthenticationService.refresh` (auth.py): run the
`RefreshTokenValidityHandler -> RevokeRefreshTokenHandler` chain, then
`refresh_token_factory.create`, then return a fresh access token.  Any
exception is wrapped by `get_auth_error(500)`; the model propagates the
underlying error value.  `refresh_delta` and `access_delta` are the configured
refresh/access lifetimes in seconds. -/
def AuthenticationService.refresh (b : JwtTokenBuilder) (subject : UserSubject)
    (refresh_delta access_delta now : Int) (store : Store) :
    Except TokenError (Jwt × Store) :=
  match BaseHandler.process
      [RefreshTokenValidityHandler.handle subject,
       RevokeRefreshTokenHandler.handle subject] store with
  | .error e => .error e
  | .ok store1 =>
    let created := RefreshTokenFactory.create b store1 subject refresh_delta now now
    .ok (AccessTokenFactory.create b subject access_delta now now, created.2)

/-- `AuthenticationService.logout` (auth.py): run the
`RefreshTokenValidityHandler -> RevokeRefreshTokenHandler` chain; any
exception is wrapped by `get_auth_error(400)`; the model propagates the
underlying error value. -/
def AuthenticationService.logout (subject : UserSubject) (store : Store) :
    Except TokenError Store :=
  BaseHandler.process
    [RefreshTokenValidityHandler.handle subject,
     RevokeRefreshTokenHandler.handle subject] store

/-! ### Basic lemmas about the store and the coder -/

theorem Store.get_setex_self (s : Store) (name : String) (t : Int) (v : Jwt) :
    Store.get (Store.setex s name t v) name = some { value := v, ttl := t } := by
  simp [Store.setex, Store.get]

theorem Store.get_delete_self (s : Store) (name : String) :
    Store.get (Store.delete s name) name = none := by
  induction s with
  | nil => rfl
  | cons kv rest ih =>
    obtain ⟨k, e⟩ := kv
    by_cases h : k = name
    · simpa [Store.delete, h] using ih
    · simp [Store.delete, Store.get, h, ih]

theorem JwtTokenCoder.decode_encode (cl : Claims) (k : Nat) (a : String) (now : Int) :
    JwtTokenCoder.decode (JwtTokenCoder.encode cl k a) k a now
      = if cl.exp ≤ now then .error .tokenExpired else .ok cl := by
  simp [JwtTokenCoder.decode, JwtTokenCoder.encode]

/-- A successful decode pins down the token: its claims are the decoded claims
and it was signed with the supplied key and algorithm; its expiry is strictly
in the future. -/
theorem JwtTokenCoder.decode_ok_eq {t : Jwt} {k : Nat} {a : String} {now : Int}
    {cl : Claims} (h : JwtTokenCoder.decode t k a now = .ok cl) :
    t = { claims := cl, key := k, alg := a } ∧ now < cl.exp := by
  unfold JwtTokenCoder.decode at h
  split at h
  · rename_i hka
    split at h
    · simp at h
    · rename_i hexp
      simp only [Except.ok.injEq] at h
      obtain ⟨hc, ha⟩ := hka
      cases t
      simp_all
  · simp at h

theorem JwtTokenCoder.decode_ne_negativeLifetime (t : Jwt) (k : Nat) (a : String)
    (now : Int) :
    JwtTokenCoder.decode t k a now ≠ .error .negativeLifetime := by
  unfold JwtTokenCoder.decode
  split
  · split <;> simp
  · simp

/-! ### Concrete values used by witnesses and counterexamples -/

/-- A concrete subject. -/
def subjectA : UserSubject :=
  { id := "a1", login := "alice", email := "alice@example.com",
    first_name := "Alice", last_name := "Anders" }

/-- A second concrete subject, distinct from `subjectA`. -/
def subjectB : UserSubject :=
  { id := "b2", login := "bob", email := "bob@example.com",
    first_name := "Bob", last_name := "Brown" }

/-- A concrete initialized builder. -/
def builderA : JwtTokenBuilder := { secret_key := 7, algorithm := "HS256" }

/-- A concrete token for `subjectA` signed by `builderA`: issued at 0,
expiring at 100. -/
def tokenA100 : Jwt :=
  { claims := { sub := subjectA, iat := 0, exp := 100 }, key := 7, alg := "HS256" }

theorem seconds_between_nonneg (d1 d2 : Int) : 0 ≤ seconds_between d1 d2 :=
  abs_nonneg _

/-! ### Claims -/

/-- C1: the claim says a secret-key strength strictly below the algorithm's
minimum fails (WeakSecret) and a strength meeting or exceeding it succeeds.
The code's comparison is inverted (`>` where the intent, per its own error
message `Secret key strength must be not less than ...`, is `<`): for HS256,
whose minimum is 1024, a strength of 512 below the minimum is accepted and
recorded, while 2048 above the minimum raises the strength error. -/
theorem c1_secret_key_strength_check_inverted :
    JwtTokenBuilder.set_algorithm { algorithm := none, key_strength := none } "HS256"
      = .ok { algorithm := some "HS256", key_strength := none }
    ∧ JwtTokenBuilder.set_secret_key_strength
        { algorithm := some "HS256", key_strength := none } 512
      = .ok { algorithm := some "HS256", key_strength := some 512 }
    ∧ JwtTokenBuilder.set_secret_key_strength
        { algorithm := some "HS256", key_strength := none } 2048
      = .error .secretStrengthError := by
  exact ⟨rfl, rfl, rfl⟩

/-- C2: the claim says the store TTL equals the lifetime in seconds.  For a
subject with no stored entry and the default 10-day lifetime (864000 seconds),
`RefreshTokenFactory.create` does build the token, persist it under
`subject.id` and return it, but the TTL written by `setex` is
`expire_delta * 24 * 60 * 60` — a `timedelta` scaled by 86400 — i.e.
74649600000 seconds instead of 864000. -/
theorem c2_refresh_create_ttl_scaled_by_86400 :
    RefreshTokenFactory.create builderA [] subjectA 864000 0 0
      = (some { claims := { sub := subjectA, iat := 0, exp := 864000 },
                key := 7, alg := "HS256" },
         [(subjectA.id,
           { value := { claims := { sub := subjectA, iat := 0, exp := 864000 },
                        key := 7, alg := "HS256" },
             ttl := 74649600000 })])
    ∧ (74649600000 : Int) ≠ 864000 := by
  exact ⟨rfl, by decide⟩

/-- C3 counterexample: with the stored token `tokenA100` (subject `subjectA`,
`iat = 0`, `exp = 100`), prolonging at `now = 50` with a 10-day configured
lifetime re-persists the very same token value, and decoding the re-stored
value yields the identical subject with the identical `expires_at = 100` — not
a strictly later one, refuting the claim at this input. -/
theorem c3_counterexample_exp_unchanged :
    ProlongRefreshTokenHandler.handle builderA subjectA 10 50
        [(subjectA.id, { value := tokenA100, ttl := 864000 })]
      = .ok [(subjectA.id, { value := tokenA100, ttl := 864000 })]
    ∧ JwtTokenBuilder.decode builderA tokenA100 50
      = .ok { sub := subjectA, iat := 0, exp := 100 } := by
  exact ⟨rfl, rfl⟩

/-- C3 (amended): for every subject whose stored Refresh Token decodes
successfully at the prolongation instant, `ProlongRefreshTokenHandler`
re-persists the SAME token value — the re-stored value's decoded claims
contain the identical Subject payload and an unchanged `expires_at` (the
claims are re-encoded as-is) — and only the store TTL is recalculated, to
`seconds_between(iat, exp + lifetime_days * 86400)`. -/
theorem c3_prolong_same_claims_recalculated_ttl
    (b : JwtTokenBuilder) (subject : UserSubject) (days now : Int)
    (store : Store) (e : StoreEntry) (cl : Claims)
    (hget : Store.get store subject.id = some e)
    (hdec : b.decode e.value now = .ok cl) :
    ProlongRefreshTokenHandler.handle b subject days now store
      = .ok (Store.setex store subject.id
          (seconds_between cl.iat (cl.exp + days * 24 * 60 * 60)) e.value)
    ∧ Store.get (Store.setex store subject.id
          (seconds_between cl.iat (cl.exp + days * 24 * 60 * 60)) e.value) subject.id
      = some { value := e.value,
               ttl := seconds_between cl.iat (cl.exp + days * 24 * 60 * 60) }
    ∧ b.decode e.value now = .ok cl := by
  have hval : e.value = { claims := cl, key := b.secret_key, alg := b.algorithm } :=
    (JwtTokenCoder.decode_ok_eq hdec).1
  have henc : b.encode cl = e.value := by
    rw [hval]; rfl
  refine ⟨?_, Store.get_setex_self store subject.id _ e.value, hdec⟩
  simp only [ProlongRefreshTokenHandler.handle, hget, hdec]
  rw [if_neg (not_lt.mpr (seconds_between_nonneg _ _)), henc]

/-- C3 witness: the amended theorem applied at the counterexample input. -/
theorem c3_prolong_same_claims_recalculated_ttl_witness :
    ProlongRefreshTokenHandler.handle builderA subjectA 10 50
        [(subjectA.id, { value := tokenA100, ttl := 864000 })]
      = .ok (Store.setex [(subjectA.id, { value := tokenA100, ttl := 864000 })]
          subjectA.id (seconds_between 0 (100 + 10 * 24 * 60 * 60)) tokenA100)
    ∧ Store.get (Store.setex [(subjectA.id, { value := tokenA100, ttl := 864000 })]
          subjectA.id (seconds_between 0 (100 + 10 * 24 * 60 * 60)) tokenA100) subjectA.id
      = some { value := tokenA100, ttl := seconds_between 0 (100 + 10 * 24 * 60 * 60) }
    ∧ JwtTokenBuilder.decode builderA tokenA100 50
      = .ok { sub := subjectA, iat := 0, exp := 100 } :=
  c3_prolong_same_claims_recalculated_ttl builderA subjectA 10 50
    [(subjectA.id, { value := tokenA100, ttl := 864000 })]
    { value := tokenA100, ttl := 864000 }
    { sub := subjectA, iat := 0, exp := 100 }
    rfl rfl

/-- The refresh token created for `subjectA` by a rotation at `now = 1000`
with the 864000-second (10-day) refresh lifetime. -/
def tokenA865000 : Jwt :=
  { claims := { sub := subjectA, iat := 1000, exp := 865000 }, key := 7, alg := "HS256" }

/-- The access token issued for `subjectA` at `now = 1000` with a
3600-second access lifetime. -/
def accessTokenA4600 : Jwt :=
  { claims := { sub := subjectA, iat := 1000, exp := 4600 }, key := 7, alg := "HS256" }

/-- The store after a successful `refresh(subjectA)` at `now = 1000`. -/
def storeAfterRefreshA : Store :=
  [(subjectA.id, { value := tokenA865000, ttl := 74649600000 })]

/-- C4 counterexample: with the old token `tokenA100` stored for `subjectA`,
`refresh(subjectA)` completes and re-creates an entry under the same key, so a
subsequent `RefreshTokenValidityHandler` run for the pre-rotation subject
SUCCEEDS instead of failing with the TokenAbsent error, refuting the claim at
this input. -/
theorem c4_counterexample_validity_succeeds_after_refresh :
    AuthenticationService.refresh builderA subjectA 864000 3600 1000
        [(subjectA.id, { value := tokenA100, ttl := 864000 })]
      = .ok (accessTokenA4600, storeAfterRefreshA)
    ∧ RefreshTokenValidityHandler.handle subjectA storeAfterRefreshA
      = .ok storeAfterRefreshA
    ∧ RefreshTokenValidityHandler.handle subjectA storeAfterRefreshA
      ≠ .error .tokenAbsent := by
  have h1 : RefreshTokenValidityHandler.handle subjectA storeAfterRefreshA
      = .ok storeAfterRefreshA := rfl
  refine ⟨rfl, h1, by rw [h1]; simp⟩

/-- C4 (amended): after `refresh(subject)` completes, a
`RefreshTokenValidityHandler` run for the same subject SUCCEEDS: rotation
re-creates an entry under the same key `subject.id`, and the handler checks
only the existence of that key — it never compares the stored value with the
presented old token — so replay of the old token value is not detected by this
handler. -/
theorem c4_validity_handler_succeeds_after_refresh
    (b : JwtTokenBuilder) (subject : UserSubject)
    (refresh_delta access_delta now : Int) (store store2 : Store) (a : Jwt)
    (h : AuthenticationService.refresh b subject refresh_delta access_delta now store
      = .ok (a, store2)) :
    RefreshTokenValidityHandler.handle subject store2 = .ok store2 := by
  cases hg : Store.get store subject.id with
  | none =>
    simp [AuthenticationService.refresh, BaseHandler.process,
      RefreshTokenValidityHandler.handle, hg] at h
  | some e =>
    have hd : Store.get (Store.delete store subject.id) subject.id = none :=
      Store.get_delete_self store subject.id
    simp only [AuthenticationService.refresh, BaseHandler.process,
      RefreshTokenValidityHandler.handle, RevokeRefreshTokenHandler.handle,
      RefreshTokenFactory.create, hg, hd] at h
    simp only [Except.ok.injEq, Prod.mk.injEq] at h
    obtain ⟨-, hs⟩ := h
    rw [← hs]
    simp [RefreshTokenValidityHandler.handle, Store.get_setex_self]

/-- C4 witness: the amended theorem applied at the counterexample input. -/
theorem c4_validity_handler_succeeds_after_refresh_witness :
    RefreshTokenValidityHandler.handle subjectA storeAfterRefreshA
      = .ok storeAfterRefreshA :=
  c4_validity_handler_succeeds_after_refresh builderA subjectA 864000 3600 1000
    [(subjectA.id, { value := tokenA100, ttl := 864000 })] storeAfterRefreshA
    accessTokenA4600 rfl

/-- C5: expiry boundary — for every builder, subject and instant, a token
whose `expires_at` equals `now` is rejected as expired by both the
Access-token expiration check and the Refresh-token expiration check (the
strict-future check is enforced at the `jwt.decode` layer, which raises
`ExpiredSignatureError` when `exp ≤ now`), while a token whose `expires_at` is
one second in the future passes both checks. -/
theorem c5_expiry_boundary (b : JwtTokenBuilder) (subject : UserSubject)
    (iat now ttl : Int) (store : Store) :
    AccessTokenExpirationValidityHandler.handle b
        (JwtTokenCoder.encode { sub := subject, iat := iat, exp := now }
          b.secret_key b.algorithm) now store
      = .error .tokenExpired
    ∧ AccessTokenExpirationValidityHandler.handle b
        (JwtTokenCoder.encode { sub := subject, iat := iat, exp := now + 1 }
          b.secret_key b.algorithm) now store
      = .ok store
    ∧ RefreshTokenExpirationValidityHandler.handle b subject now
        [(subject.id,
          { value := JwtTokenCoder.encode { sub := subject, iat := iat, exp := now }
              b.secret_key b.algorithm, ttl := ttl })]
      = .error .tokenExpired
    ∧ RefreshTokenExpirationValidityHandler.handle b subject now
        [(subject.id,
          { value := JwtTokenCoder.encode { sub := subject, iat := iat, exp := now + 1 }
              b.secret_key b.algorithm, ttl := ttl })]
      = .ok [(subject.id,
          { value := JwtTokenCoder.encode { sub := subject, iat := iat, exp := now + 1 }
              b.secret_key b.algorithm, ttl := ttl })] := by
  refine ⟨?_, ?_, ?_, ?_⟩
  · simp [AccessTokenExpirationValidityHandler.handle, JwtTokenBuilder.decode,
      JwtTokenCoder.decode_encode]
  · have h1 : ¬ (now + 1 ≤ now) := by omega
    have h2 : ¬ (now + 1 < now) := by omega
    simp [AccessTokenExpirationValidityHandler.handle, JwtTokenBuilder.decode,
      JwtTokenCoder.decode_encode, h1, h2]
  · simp [RefreshTokenExpirationValidityHandler.handle, Store.get,
      JwtTokenBuilder.decode, JwtTokenCoder.decode_encode]
  · have h1 : ¬ (now + 1 ≤ now) := by omega
    have h2 : now < now + 1 := by omega
    simp [RefreshTokenExpirationValidityHandler.handle, Store.get,
      JwtTokenBuilder.decode, JwtTokenCoder.decode_encode, h1, h2]

/-- C6: at most one live Refresh Token per subject — after a first
`RefreshTokenFactory.create` for a subject with no stored entry, a second
create without an intervening revoke returns nothing and leaves the store
exactly as the first create left it. -/
theorem c6_second_create_is_noop (b : JwtTokenBuilder) (subject : UserSubject)
    (d1 d2 n1 n2 n3 n4 : Int) (store : Store)
    (habsent : Store.get store subject.id = none) :
    RefreshTokenFactory.create b
        (RefreshTokenFactory.create b store subject d1 n1 n2).2 subject d2 n3 n4
      = (none, (RefreshTokenFactory.create b store subject d1 n1 n2).2) := by
  simp [RefreshTokenFactory.create, habsent, Store.get_setex_self]

/-- C6 witness: the theorem applied to `subjectA` with an empty store. -/
theorem c6_second_create_is_noop_witness :
    RefreshTokenFactory.create builderA
        (RefreshTokenFactory.create builderA [] subjectA 864000 0 0).2 subjectA 864000 5 5
      = (none, (RefreshTokenFactory.create builderA [] subjectA 864000 0 0).2) :=
  c6_second_create_is_noop builderA subjectA 864000 864000 0 0 5 5 [] rfl

/-- C7: round trip — for every subject and positive lifetime, with the two
clock reads inside `build` at most one second apart, decoding the built token
at the issuance instant succeeds, reproduces the same subject identity, and
yields an `expires_at` within one second of `issued_at + lifetime`. -/
theorem c7_round_trip (b : JwtTokenBuilder) (subject : UserSubject)
    (lifetime now_iat now_exp : Int)
    (hpos : 0 < lifetime) (h1 : now_iat ≤ now_exp) (h2 : now_exp ≤ now_iat + 1) :
    b.decode (b.build subject lifetime now_iat now_exp) now_iat
      = .ok { sub := subject, iat := now_iat, exp := now_exp + lifetime }
    ∧ |(now_exp + lifetime) - (now_iat + lifetime)| ≤ 1 := by
  constructor
  · simp only [JwtTokenBuilder.decode, JwtTokenBuilder.build,
      JwtTokenCoder.decode_encode]
    rw [if_neg (by omega)]
  · rw [abs_le]
    omega

/-- C7 witness: the round trip at a concrete input with the two clock reads
one second apart. -/
theorem c7_round_trip_witness :
    JwtTokenBuilder.decode builderA
        (JwtTokenBuilder.build builderA subjectA 3600 0 1) 0
      = .ok { sub := subjectA, iat := 0, exp := 1 + 3600 }
    ∧ |((1 : Int) + 3600) - (0 + 3600)| ≤ 1 :=
  c7_round_trip builderA subjectA 3600 0 1 (by decide) (by decide) (by decide)

/-- C8: chain execution — first conjunct: if every handler before position k
succeeds and the k-th handler raises, the chain aborts there: the error
propagates unchanged to the caller of `process` and exactly the first k+1
handlers execute (none after position k).  Second conjunct: if no handler
raises, every handler executes exactly once, in chain order (the execution
count equals the chain length; order is fixed by the sequential driver). -/
theorem c8_chain_first_failure_aborts :
    (∀ (pre post : List Handler) (h : Handler) (s s1 : Store) (e : TokenError),
        BaseHandler.process pre s = .ok s1 → h s1 = .error e →
        BaseHandler.process (pre ++ h :: post) s = .error e
        ∧ BaseHandler.executed (pre ++ h :: post) s = pre.length + 1)
    ∧ (∀ (hs : List Handler) (s s2 : Store),
        BaseHandler.process hs s = .ok s2 →
        BaseHandler.executed hs s = hs.length) := by
  constructor
  · intro pre
    induction pre with
    | nil =>
      intro post h s s1 e hpre hfail
      simp only [BaseHandler.process, Except.ok.injEq] at hpre
      subst hpre
      simp [BaseHandler.process, BaseHandler.executed, hfail]
    | cons p rest ih =>
      intro post h s s1 e hpre hfail
      cases hp : p s with
      | error e2 => simp [BaseHandler.process, hp] at hpre
      | ok s3 =>
        simp only [BaseHandler.process, hp] at hpre
        have hrec := ih post h s3 s1 e hpre hfail
        refine ⟨?_, ?_⟩
        · simpa [BaseHandler.process, hp] using hrec.1
        · simp [BaseHandler.executed, hp, hrec.2]
  · intro hs
    induction hs with
    | nil =>
      intro s s2 _
      rfl
    | cons p rest ih =>
      intro s s2 hp
      cases hq : p s with
      | error e2 => simp [BaseHandler.process, hq] at hp
      | ok s3 =>
        simp only [BaseHandler.process, hq] at hp
        simp [BaseHandler.executed, hq, ih s3 s2 hp]

/-- C8 witness: a three-handler chain over a concrete store whose middle
handler fails — the error propagates and exactly the first two handlers
execute. -/
theorem c8_chain_first_failure_aborts_witness :
    BaseHandler.process
        ([RevokeRefreshTokenHandler.handle subjectB]
          ++ RefreshTokenValidityHandler.handle subjectB
            :: [RevokeRefreshTokenHandler.handle subjectA])
        [(subjectA.id, { value := tokenA100, ttl := 864000 })]
      = .error .tokenAbsent
    ∧ BaseHandler.executed
        ([RevokeRefreshTokenHandler.handle subjectB]
          ++ RefreshTokenValidityHandler.handle subjectB
            :: [RevokeRefreshTokenHandler.handle subjectA])
        [(subjectA.id, { value := tokenA100, ttl := 864000 })]
      = [RevokeRefreshTokenHandler.handle subjectB].length + 1 :=
  c8_chain_first_failure_aborts.1
    [RevokeRefreshTokenHandler.handle subjectB]
    [RevokeRefreshTokenHandler.handle subjectA]
    (RefreshTokenValidityHandler.handle subjectB)
    [(subjectA.id, { value := tokenA100, ttl := 864000 })]
    [(subjectA.id, { value := tokenA100, ttl := 864000 })]
    .tokenAbsent rfl rfl

/-- C9: if `logout(subject)` completes successfully, a subsequent
`refresh(subject)` fails with the token-absent error: revocation removed the
subject's entry, so the validity link of the rotation chain finds nothing to
rotate. -/
theorem c9_logout_then_refresh_token_absent
    (b : JwtTokenBuilder) (subject : UserSubject)
    (refresh_delta access_delta now : Int) (store store1 : Store)
    (h : AuthenticationService.logout subject store = .ok store1) :
    AuthenticationService.refresh b subject refresh_delta access_delta now store1
      = .error .tokenAbsent := by
  cases hg : Store.get store subject.id with
  | none =>
    simp [AuthenticationService.logout, BaseHandler.process,
      RefreshTokenValidityHandler.handle, hg] at h
  | some e =>
    simp only [AuthenticationService.logout, BaseHandler.process,
      RefreshTokenValidityHandler.handle, RevokeRefreshTokenHandler.handle, hg,
      Except.ok.injEq] at h
    rw [← h]
    simp [AuthenticationService.refresh, BaseHandler.process,
      RefreshTokenValidityHandler.handle, Store.get_delete_self]

/-- C9 witness: logout of `subjectA` from a store holding its token leaves the
empty store, on which refresh fails with the token-absent error. -/
theorem c9_logout_then_refresh_token_absent_witness :
    AuthenticationService.refresh builderA subjectA 864000 3600 1000 []
      = .error .tokenAbsent :=
  c9_logout_then_refresh_token_absent builderA subjectA 864000 3600 1000
    [(subjectA.id, { value := tokenA100, ttl := 864000 })] [] rfl

/-- C10: `seconds_between` returns an absolute value, hence is non-negative
for every pair of instants, so the `days_in_sec < 0` branch of
`ProlongRefreshTokenHandler.handle` is unreachable: prolongation never
returns the negative-lifetime error, whatever the stored claims. -/
theorem c10_negative_lifetime_branch_unreachable :
    (∀ d1 d2 : Int, 0 ≤ seconds_between d1 d2)
    ∧ ∀ (b : JwtTokenBuilder) (subject : UserSubject) (days now : Int) (store : Store),
        ProlongRefreshTokenHandler.handle b subject days now store
          ≠ .error .negativeLifetime := by
  constructor
  · exact seconds_between_nonneg
  · intro b subject days now store hcontra
    simp only [ProlongRefreshTokenHandler.handle] at hcontra
    cases hg : Store.get store subject.id with
    | none => simp [hg] at hcontra
    | some data =>
      simp only [hg] at hcontra
      cases hd : b.decode data.value now with
      | error e =>
        simp only [hd, Except.error.injEq] at hcontra
        subst hcontra
        simp only [JwtTokenBuilder.decode] at hd
        exact absurd hd
          (JwtTokenCoder.decode_ne_negativeLifetime data.value b.secret_key b.algorithm now)
      | ok cl =>
        simp only [hd] at hcontra
        rw [if_neg (not_lt.mpr (seconds_between_nonneg _ _))] at hcontra
        simp at hcontra

/-- C10 witness: the unreachability fact applied at a concrete input. -/
theorem c10_negative_lifetime_branch_unreachable_witness :
    ProlongRefreshTokenHandler.handle builderA subjectA 10 50
        [(subjectA.id, { value := tokenA100, ttl := 864000 })]
      ≠ .error .negativeLifetime :=
  c10_negative_lifetime_branch_unreachable.2 builderA subjectA 10 50
    [(subjectA.id, { value := tokenA100, ttl := 864000 })]

end Theatre
